import Mathlib

/-
Verification of the ivanphz/my-custom-caddy repository: a Selection Manifest
(src/tools.go, a build-tag-gated list of blank imports of Caddy plugin
packages) together with its dependency manifest (src/go.mod).  The two files
are embedded below as Lean data, and the external mechanisms the spec
describes (registration side effects, the dependency resolver, build-tag
gating) are modelled from the spec where noted.
-/

namespace MyCustomCaddy

set_option maxHeartbeats 4000000
set_option maxRecDepth 10000

/-- A single entry of a `require` block of `src/go.mod`: a module path pinned
to exactly one version. -/
structure Require where
  path : String
  version : String
deriving DecidableEq

/-- A `replace` directive of `src/go.mod`: it redirects one module path to a
replacement source location at a pinned revision. -/
structure Replace where
  oldPath : String
  newPath : String
  newVersion : String
deriving DecidableEq

/-- The blank-import list of `src/tools.go` (lines 4-12), in source order.
These are the import identifiers of the Selection Manifest. -/
def toolsImports : List String := [
  "github.com/caddyserver/caddy/v2",
  "github.com/caddyserver/forwardproxy",
  "github.com/imgk/caddy-trojan",
  "github.com/mholt/caddy-l4",
  "github.com/fvbommel/caddy-combine-ip-ranges",
  "github.com/LeenHawk/caddy-edgeone-ip",
  "github.com/monobilisim/caddy-ip-list",
  "github.com/WeidiDeng/caddy-cloudflare-ip",
  "github.com/xcaddyplugins/caddy-trusted-cloudfront"
]

/-- The direct `require` block of `src/go.mod` (lines 7-27), in source order. -/
def directRequires : List Require := [
  ⟨"github.com/LeenHawk/caddy-edgeone-ip", "v0.1.1"⟩,
  ⟨"github.com/WeidiDeng/caddy-cloudflare-ip", "v0.0.0-20231130002422-f53b62aa13cb"⟩,
  ⟨"github.com/caddy-dns/tencentcloud", "v0.4.3"⟩,
  ⟨"github.com/caddyserver/caddy/v2", "v2.10.2"⟩,
  ⟨"github.com/caddyserver/forwardproxy", "v0.0.0-20251013200746-bb364cc53204"⟩,
  ⟨"github.com/caddyserver/jsonc-adapter", "v0.0.0-20200325004025-825ee096306c"⟩,
  ⟨"github.com/fvbommel/caddy-combine-ip-ranges", "v0.0.1"⟩,
  ⟨"github.com/greenpau/caddy-security", "v1.1.31"⟩,
  ⟨"github.com/imgk/caddy-trojan", "v0.2.10-2"⟩,
  ⟨"github.com/lanrat/caddy-dynamic-remoteip", "v0.0.0-20231007025615-f72ed4fc7b9c"⟩,
  ⟨"github.com/mholt/caddy-events-exec", "v0.1.0"⟩,
  ⟨"github.com/mholt/caddy-l4", "v0.0.0-20251209130418-1a3490ef786a"⟩,
  ⟨"github.com/mholt/caddy-ratelimit", "v0.1.0"⟩,
  ⟨"github.com/mholt/caddy-webdav", "v0.0.0-20250805175825-7a5c90d8bf90"⟩,
  ⟨"github.com/monobilisim/caddy-ip-list", "v0.0.0-20250818180736-cd5c45325ade"⟩,
  ⟨"github.com/okrc/caddy-uploadcert-tencentcloud", "v0.1.2"⟩,
  ⟨"github.com/porech/caddy-maxmind-geolocation", "v1.0.1"⟩,
  ⟨"github.com/tuzzmaniandevil/caddy-dynamic-clientip", "v1.0.5"⟩,
  ⟨"github.com/xcaddyplugins/caddy-trusted-cloudfront", "v0.0.0-20240604042247-0a0864e80f1c"⟩
]

/-
The indirect `require` block of `src/go.mod` (lines 29-180), in source order;
every entry there is marked `// indirect`.  It is split into chunks of 25
entries purely to keep elaboration of the list literals cheap; the
concatenation below restores the exact source order.
-/

def indirectChunk0 : List Require := [
  ⟨"cel.dev/expr", "v0.24.0"⟩,
  ⟨"cloud.google.com/go/auth", "v0.16.2"⟩,
  ⟨"cloud.google.com/go/auth/oauth2adapt", "v0.2.8"⟩,
  ⟨"cloud.google.com/go/compute/metadata", "v0.7.0"⟩,
  ⟨"dario.cat/mergo", "v1.0.2"⟩,
  ⟨"filippo.io/edwards25519", "v1.1.0"⟩,
  ⟨"github.com/AndreasBriese/bbloom", "v0.0.0-20190825152654-46b345b51c96"⟩,
  ⟨"github.com/Azure/go-ntlmssp", "v0.0.0-20221128193559-754e69321358"⟩,
  ⟨"github.com/KimMachineGun/automemlimit", "v0.7.4"⟩,
  ⟨"github.com/Masterminds/goutils", "v1.1.1"⟩,
  ⟨"github.com/Masterminds/semver/v3", "v3.3.1"⟩,
  ⟨"github.com/Masterminds/sprig/v3", "v3.3.0"⟩,
  ⟨"github.com/Microsoft/go-winio", "v0.6.2"⟩,
  ⟨"github.com/antlr4-go/antlr/v4", "v4.13.1"⟩,
  ⟨"github.com/aryann/difflib", "v0.0.0-20210328193216-ff5ff6dc229b"⟩,
  ⟨"github.com/beevik/etree", "v1.5.0"⟩,
  ⟨"github.com/beorn7/perks", "v1.0.1"⟩,
  ⟨"github.com/caddyserver/certmagic", "v0.25.0"⟩,
  ⟨"github.com/caddyserver/zerossl", "v0.1.3"⟩,
  ⟨"github.com/ccoveille/go-safecast", "v1.6.1"⟩,
  ⟨"github.com/cespare/xxhash", "v1.1.0"⟩,
  ⟨"github.com/cespare/xxhash/v2", "v2.3.0"⟩,
  ⟨"github.com/chzyer/readline", "v1.5.1"⟩,
  ⟨"github.com/cloudflare/circl", "v1.6.1"⟩,
  ⟨"github.com/coreos/go-oidc/v3", "v3.14.1"⟩
]

def indirectChunk1 : List Require := [
  ⟨"github.com/cpuguy83/go-md2man/v2", "v2.0.7"⟩,
  ⟨"github.com/crewjam/httperr", "v0.2.0"⟩,
  ⟨"github.com/crewjam/saml", "v0.4.14"⟩,
  ⟨"github.com/dgraph-io/badger", "v1.6.2"⟩,
  ⟨"github.com/dgraph-io/badger/v2", "v2.2007.4"⟩,
  ⟨"github.com/dgraph-io/ristretto", "v0.2.0"⟩,
  ⟨"github.com/dgryski/go-farm", "v0.0.0-20240924180020-3414d57e47da"⟩,
  ⟨"github.com/dustin/go-humanize", "v1.0.1"⟩,
  ⟨"github.com/emersion/go-sasl", "v0.0.0-20241020182733-b788ff22d5a6"⟩,
  ⟨"github.com/emersion/go-smtp", "v0.21.3"⟩,
  ⟨"github.com/felixge/httpsnoop", "v1.0.4"⟩,
  ⟨"github.com/fsnotify/fsnotify", "v1.9.0"⟩,
  ⟨"github.com/go-asn1-ber/asn1-ber", "v1.5.7"⟩,
  ⟨"github.com/go-jose/go-jose/v3", "v3.0.4"⟩,
  ⟨"github.com/go-jose/go-jose/v4", "v4.1.0"⟩,
  ⟨"github.com/go-ldap/ldap/v3", "v3.4.10"⟩,
  ⟨"github.com/go-logr/logr", "v1.4.3"⟩,
  ⟨"github.com/go-logr/stdr", "v1.2.2"⟩,
  ⟨"github.com/go-sql-driver/mysql", "v1.9.2"⟩,
  ⟨"github.com/golang-jwt/jwt/v4", "v4.5.2"⟩,
  ⟨"github.com/golang/protobuf", "v1.5.4"⟩,
  ⟨"github.com/golang/snappy", "v1.0.0"⟩,
  ⟨"github.com/google/btree", "v1.1.3"⟩,
  ⟨"github.com/google/cel-go", "v0.26.0"⟩,
  ⟨"github.com/google/s2a-go", "v0.1.9"⟩
]

def indirectChunk2 : List Require := [
  ⟨"github.com/google/uuid", "v1.6.0"⟩,
  ⟨"github.com/googleapis/enterprise-certificate-proxy", "v0.3.6"⟩,
  ⟨"github.com/googleapis/gax-go/v2", "v2.14.2"⟩,
  ⟨"github.com/gorilla/websocket", "v1.5.3"⟩,
  ⟨"github.com/greenpau/go-authcrunch", "v1.1.7"⟩,
  ⟨"github.com/greenpau/versioned", "v1.0.30"⟩,
  ⟨"github.com/huandu/xstrings", "v1.5.0"⟩,
  ⟨"github.com/imgk/memory-go", "v0.2.0"⟩,
  ⟨"github.com/inconshreveable/mousetrap", "v1.1.0"⟩,
  ⟨"github.com/jackc/pgpassfile", "v1.0.0"⟩,
  ⟨"github.com/jackc/pgservicefile", "v0.0.0-20240606120523-5a60cdf6a761"⟩,
  ⟨"github.com/jackc/pgx/v5", "v5.7.5"⟩,
  ⟨"github.com/jackc/puddle/v2", "v2.2.2"⟩,
  ⟨"github.com/jonboulle/clockwork", "v0.5.0"⟩,
  ⟨"github.com/klauspost/compress", "v1.18.0"⟩,
  ⟨"github.com/klauspost/cpuid/v2", "v2.3.0"⟩,
  ⟨"github.com/libdns/libdns", "v1.1.1"⟩,
  ⟨"github.com/libdns/tencentcloud", "v1.4.3"⟩,
  ⟨"github.com/manifoldco/promptui", "v0.9.0"⟩,
  ⟨"github.com/mastercactapus/proxyprotocol", "v0.0.4"⟩,
  ⟨"github.com/mattermost/xml-roundtrip-validator", "v0.1.0"⟩,
  ⟨"github.com/mattn/go-colorable", "v0.1.14"⟩,
  ⟨"github.com/mattn/go-isatty", "v0.0.20"⟩,
  ⟨"github.com/mgutz/ansi", "v0.0.0-20200706080929-d51e80ef957d"⟩,
  ⟨"github.com/mholt/acmez/v3", "v3.1.4"⟩
]

def indirectChunk3 : List Require := [
  ⟨"github.com/miekg/dns", "v1.1.68"⟩,
  ⟨"github.com/mitchellh/copystructure", "v1.2.0"⟩,
  ⟨"github.com/mitchellh/go-ps", "v1.0.0"⟩,
  ⟨"github.com/mitchellh/reflectwalk", "v1.0.2"⟩,
  ⟨"github.com/muhammadmuzzammil1998/jsonc", "v0.0.0-20200303171503-1e787b591db7"⟩,
  ⟨"github.com/munnerz/goautoneg", "v0.0.0-20191010083416-a7dc8b61c822"⟩,
  ⟨"github.com/oschwald/maxminddb-golang", "v1.13.1"⟩,
  ⟨"github.com/pbnjay/memory", "v0.0.0-20210728143218-7b4eea64cf58"⟩,
  ⟨"github.com/pires/go-proxyproto", "v0.8.1"⟩,
  ⟨"github.com/pkg/errors", "v0.9.1"⟩,
  ⟨"github.com/prometheus/client_golang", "v1.23.2"⟩,
  ⟨"github.com/prometheus/client_model", "v0.6.2"⟩,
  ⟨"github.com/prometheus/common", "v0.67.4"⟩,
  ⟨"github.com/prometheus/procfs", "v0.19.2"⟩,
  ⟨"github.com/quic-go/qpack", "v0.6.0"⟩,
  ⟨"github.com/quic-go/quic-go", "v0.57.1"⟩,
  ⟨"github.com/riobard/go-bloom", "v0.0.0-20200614022211-cdc8013cb5b3"⟩,
  ⟨"github.com/rs/xid", "v1.6.0"⟩,
  ⟨"github.com/russellhaering/goxmldsig", "v1.5.0"⟩,
  ⟨"github.com/russross/blackfriday/v2", "v2.1.0"⟩,
  ⟨"github.com/shadowsocks/go-shadowsocks2", "v0.1.6-0.20241020092332-e1fe9ea73740"⟩,
  ⟨"github.com/shopspring/decimal", "v1.4.0"⟩,
  ⟨"github.com/shurcooL/sanitized_anchor_name", "v1.0.0"⟩,
  ⟨"github.com/skip2/go-qrcode", "v0.0.0-20200617195104-da1b6568686e"⟩,
  ⟨"github.com/slackhq/nebula", "v1.9.7"⟩
]

def indirectChunk4 : List Require := [
  ⟨"github.com/smallstep/certificates", "v0.28.4"⟩,
  ⟨"github.com/smallstep/cli-utils", "v0.12.1"⟩,
  ⟨"github.com/smallstep/linkedca", "v0.23.0"⟩,
  ⟨"github.com/smallstep/nosql", "v0.7.0"⟩,
  ⟨"github.com/smallstep/pkcs7", "v0.2.1"⟩,
  ⟨"github.com/smallstep/scep", "v0.0.0-20250318231241-a25cabb69492"⟩,
  ⟨"github.com/smallstep/truststore", "v0.13.0"⟩,
  ⟨"github.com/spf13/cast", "v1.8.0"⟩,
  ⟨"github.com/spf13/cobra", "v1.9.1"⟩,
  ⟨"github.com/spf13/pflag", "v1.0.7"⟩,
  ⟨"github.com/stoewer/go-strcase", "v1.3.0"⟩,
  ⟨"github.com/tailscale/tscert", "v0.0.0-20240608151842-d3f834017e53"⟩,
  ⟨"github.com/things-go/go-socks5", "v0.1.0"⟩,
  ⟨"github.com/urfave/cli", "v1.22.17"⟩,
  ⟨"github.com/zeebo/blake3", "v0.2.4"⟩,
  ⟨"go.etcd.io/bbolt", "v1.4.0"⟩,
  ⟨"go.opentelemetry.io/auto/sdk", "v1.1.0"⟩,
  ⟨"go.opentelemetry.io/contrib/instrumentation/net/http/otelhttp", "v0.61.0"⟩,
  ⟨"go.opentelemetry.io/otel", "v1.37.0"⟩,
  ⟨"go.opentelemetry.io/otel/metric", "v1.37.0"⟩,
  ⟨"go.opentelemetry.io/otel/trace", "v1.37.0"⟩,
  ⟨"go.step.sm/crypto", "v0.67.0"⟩,
  ⟨"go.uber.org/automaxprocs", "v1.6.0"⟩,
  ⟨"go.uber.org/multierr", "v1.11.0"⟩,
  ⟨"go.uber.org/zap", "v1.27.1"⟩
]

def indirectChunk5 : List Require := [
  ⟨"go.uber.org/zap/exp", "v0.3.0"⟩,
  ⟨"go.yaml.in/yaml/v2", "v2.4.3"⟩,
  ⟨"golang.org/x/crypto", "v0.45.0"⟩,
  ⟨"golang.org/x/crypto/x509roots/fallback", "v0.0.0-20250529171604-18228cd6f13e"⟩,
  ⟨"golang.org/x/exp", "v0.0.0-20250530174510-65e920069ea6"⟩,
  ⟨"golang.org/x/mod", "v0.30.0"⟩,
  ⟨"golang.org/x/net", "v0.47.0"⟩,
  ⟨"golang.org/x/oauth2", "v0.32.0"⟩,
  ⟨"golang.org/x/sync", "v0.18.0"⟩,
  ⟨"golang.org/x/sys", "v0.38.0"⟩,
  ⟨"golang.org/x/term", "v0.37.0"⟩,
  ⟨"golang.org/x/text", "v0.31.0"⟩,
  ⟨"golang.org/x/time", "v0.14.0"⟩,
  ⟨"golang.org/x/tools", "v0.39.0"⟩,
  ⟨"golang.zx2c4.com/wintun", "v0.0.0-20230126152724-0fa3db229ce2"⟩,
  ⟨"golang.zx2c4.com/wireguard", "v0.0.0-20250521234502-f333402bd9cb"⟩,
  ⟨"google.golang.org/api", "v0.240.0"⟩,
  ⟨"google.golang.org/genproto/googleapis/api", "v0.0.0-20250603155806-513f23925822"⟩,
  ⟨"google.golang.org/genproto/googleapis/rpc", "v0.0.0-20250603155806-513f23925822"⟩,
  ⟨"google.golang.org/grpc", "v1.73.0"⟩,
  ⟨"google.golang.org/grpc/cmd/protoc-gen-go-grpc", "v1.5.1"⟩,
  ⟨"google.golang.org/protobuf", "v1.36.10"⟩,
  ⟨"gopkg.in/yaml.v3", "v3.0.1"⟩,
  ⟨"gvisor.dev/gvisor", "v0.0.0-20250503011706-39ed1f5ac29c"⟩,
  ⟨"howett.net/plist", "v1.0.1"⟩
]

def indirectRequires : List Require := indirectChunk0 ++ indirectChunk1 ++ indirectChunk2 ++ indirectChunk3 ++ indirectChunk4 ++ indirectChunk5

/-- All `require` entries of `src/go.mod`, direct block then indirect block. -/
def allRequires : List Require := directRequires ++ indirectRequires

/-- The single `replace` directive of `src/go.mod` (line 5). -/
def replaceDirectives : List Replace := [
  ⟨"github.com/caddyserver/forwardproxy",
   "github.com/klzgrad/forwardproxy",
   "v0.0.0-20250118002110-d62c80d3dd2c"⟩
]

/-- The build constraint of `src/tools.go` (line 1, the go:build line): the
file is compiled only when this tag is set. -/
def toolsBuildTag : String := "tools"

/-- Modelled from the spec: the Selection Manifest Loader of section 4.1 (the
host toolchain's handling of blank imports is not code of this repository).
The identifiers whose registration side effects are included in the binary
are exactly the identifiers listed in the manifest, and no others. -/
def includedRegistrations (manifest : List String) : List String := manifest

/-- Modelled from the spec: the Redirect Rule of section 4.2 (the resolver
applying `replace` directives is the external Go toolchain).  A `require`
entry whose path matches a directive's old path is satisfied by the
replacement source at its pinned revision; any other entry is unchanged. -/
def applyRedirect (reps : List Replace) (r : Require) : Require :=
  match reps.find? (fun rep => rep.oldPath == r.path) with
  | some rep => ⟨rep.newPath, rep.newVersion⟩
  | none => r

/-- Modelled from the spec: the Dependency Resolver interface of section 4.3
(the resolver itself is the external Go toolchain).  It pins every required
module, with redirect rules applied. -/
def resolve (reqs : List Require) (reps : List Replace) : List Require :=
  reqs.map (applyRedirect reps)

/-- The Resolved Dependency Set of this repository: every `require` entry of
`src/go.mod` with the `replace` directive applied. -/
def resolvedPins : List Require := resolve allRequires replaceDirectives

/-- Modelled from the spec: the source location whose code a consumer
importing path `p` receives, after redirect rules apply (section 4.2: the
redirect applies transitively, so it is independent of the consumer). -/
def resolveImportFor (_consumer p : String) : String :=
  match replaceDirectives.find? (fun rep => rep.oldPath == p) with
  | some rep => rep.newPath
  | none => p

/-- The whole Selection Manifest of this repository: the import list of
`src/tools.go` together with the directives of `src/go.mod`. -/
structure Manifest where
  imports : List String
  requires : List Require
  replaces : List Replace

/-- The manifest actually committed in this repository. -/
def theManifest : Manifest := ⟨toolsImports, allRequires, replaceDirectives⟩

/-- Modelled from the spec: lockfile serialization of section 6 — every
dependency with its exact pinned version, one line per pin. -/
def serializeLockfile (pins : List Require) : String :=
  String.intercalate "\n" (pins.map (fun r => r.path ++ " " ++ r.version))

/-- Modelled from the spec: one run of the Dependency Resolver against a
Selection Manifest, producing the lockfile bytes (sections 4.3 and 6). -/
def runResolver (m : Manifest) : String :=
  serializeLockfile (resolve m.requires m.replaces)

/-- Modelled from the spec: build-tag gating (section 1: `src/tools.go` is a
build-tag-gated file).  Its imports contribute to a build exactly when the
`tools` tag is among the build's tags. -/
def linkedImports (tags : List String) : List String :=
  if toolsBuildTag ∈ tags then toolsImports else []

/-- The two states of the Registration Side Effect state machine of
section 4.4 of the spec. -/
inductive RegState where
  | unregistered
  | registered
deriving DecidableEq

/-- Modelled from the spec: the Registration Side Effect state machine of
section 4.4 (registration happens inside the host program, not in this
repository's code).  The only transition is unregistered to registered. -/
inductive RegStep : RegState → RegState → Prop where
  | register : RegStep RegState.unregistered RegState.registered

/-- C1: The inclusion side effects fire for exactly the identifiers listed in
the manifest (the blank imports of src/tools.go) and no others; in
particular, the plugin modules greenpau/caddy-security and mholt/caddy-webdav
are named in the direct require block of go.mod yet are absent from the
manifest, so their registration side effects are not included. -/
theorem manifest_side_effects_exact :
    includedRegistrations toolsImports = toolsImports
    ∧ "github.com/greenpau/caddy-security" ∈ directRequires.map Require.path
    ∧ "github.com/greenpau/caddy-security" ∉ includedRegistrations toolsImports
    ∧ "github.com/mholt/caddy-webdav" ∈ directRequires.map Require.path
    ∧ "github.com/mholt/caddy-webdav" ∉ includedRegistrations toolsImports :=
  ⟨rfl, by decide, by decide, by decide, by decide⟩

/-- C2: For the one redirect present, the resolved dependency pinning
contains the redirect target (klzgrad/forwardproxy at the replace
directive's pinned revision) and not the original identifier nor the
original identifier's require-block version, while the manifest still
imports the capability under the original declared name. -/
theorem redirect_pins_replacement_source :
    (⟨"github.com/klzgrad/forwardproxy",
      "v0.0.0-20250118002110-d62c80d3dd2c"⟩ : Require) ∈ resolvedPins
    ∧ "github.com/caddyserver/forwardproxy" ∉ resolvedPins.map Require.path
    ∧ "v0.0.0-20251013200746-bb364cc53204" ∉ resolvedPins.map Require.version
    ∧ "github.com/caddyserver/forwardproxy" ∈ toolsImports
    ∧ "github.com/klzgrad/forwardproxy" ∉ toolsImports := by
  refine ⟨by decide, by decide, by decide, by decide, by decide⟩

/-- C3: Every import identifier is unique within the Selection Manifest: for
every pair of distinct positions in the blank-import list of src/tools.go,
the identifiers differ. -/
theorem tools_imports_unique :
    ∀ i j : Fin toolsImports.length, i ≠ j →
      toolsImports.get i ≠ toolsImports.get j := by decide

theorem tools_imports_unique_witness :
    toolsImports.get ⟨0, by decide⟩ ≠ toolsImports.get ⟨1, by decide⟩ :=
  tools_imports_unique ⟨0, by decide⟩ ⟨1, by decide⟩ (by decide)

/-- C4: The manifest's redirect rules consist of the single mapping from
caddyserver/forwardproxy to the pair (klzgrad/forwardproxy, one pinned
pseudo-version), and the redirect applies transitively: every consumer of
the old identifier receives the new source's code. -/
theorem redirect_rule_maps_old_to_new :
    replaceDirectives = [⟨"github.com/caddyserver/forwardproxy",
      "github.com/klzgrad/forwardproxy",
      "v0.0.0-20250118002110-d62c80d3dd2c"⟩]
    ∧ ∀ consumer : String,
        resolveImportFor consumer "github.com/caddyserver/forwardproxy"
          = "github.com/klzgrad/forwardproxy" :=
  ⟨rfl, fun _ => rfl⟩

lemma halfOnePaths_nodup :
    ((directRequires ++ indirectChunk0 ++ indirectChunk1).map Require.path).Nodup := by
  decide

lemma halfTwoPaths_nodup :
    ((indirectChunk2 ++ indirectChunk3 ++ indirectChunk4 ++ indirectChunk5).map
      Require.path).Nodup := by
  decide

lemma half_paths_disjoint :
    ∀ p ∈ (directRequires ++ indirectChunk0 ++ indirectChunk1).map Require.path,
      p ∉ (indirectChunk2 ++ indirectChunk3 ++ indirectChunk4 ++ indirectChunk5).map
        Require.path := by
  decide

lemma allPaths_split :
    allRequires.map Require.path
      = (directRequires ++ indirectChunk0 ++ indirectChunk1).map Require.path
        ++ (indirectChunk2 ++ indirectChunk3 ++ indirectChunk4 ++ indirectChunk5).map
            Require.path := by
  decide

lemma allPaths_nodup : (allRequires.map Require.path).Nodup := by
  rw [allPaths_split]
  exact List.Nodup.append halfOnePaths_nodup halfTwoPaths_nodup
    (fun a ha hb => half_paths_disjoint a ha hb)

/-- C5: The Resolved Dependency Set pins exactly one version per unique
dependency identifier: no module path occurs more than once across the two
require blocks of go.mod. -/
theorem require_identifiers_pinned_once :
    (allRequires.map Require.path).Nodup := allPaths_nodup

/-- C6: The registration state machine transitions unregistered to
registered, that transition fires exactly once per linked plugin package
(each manifest identifier occurs exactly once), the registered state is
terminal, and no un-registration transition exists. -/
theorem registration_fires_once_and_terminal :
    (∀ s t : RegState, RegStep s t →
        s = RegState.unregistered ∧ t = RegState.registered)
    ∧ (∀ t : RegState, ¬ RegStep RegState.registered t)
    ∧ (∀ p ∈ toolsImports, toolsImports.count p = 1) := by
  refine ⟨?_, ?_, by decide⟩
  · intro s t h
    cases h
    exact ⟨rfl, rfl⟩
  · intro t h
    cases h

theorem registration_fires_once_and_terminal_witness :
    (RegState.unregistered = RegState.unregistered
      ∧ RegState.registered = RegState.registered)
    ∧ toolsImports.count "github.com/caddyserver/caddy/v2" = 1 :=
  ⟨registration_fires_once_and_terminal.1 RegState.unregistered
      RegState.registered RegStep.register,
   registration_fires_once_and_terminal.2.2
      "github.com/caddyserver/caddy/v2" (by decide)⟩

/-- C7: Dependency resolution is deterministic and idempotent: two runs of
the resolver against the same unchanged Selection Manifest produce
byte-identical lockfile output. -/
theorem resolver_deterministic (m1 m2 : Manifest) (h : m1 = m2) :
    runResolver m1 = runResolver m2 := by rw [h]

theorem resolver_deterministic_witness :
    runResolver theManifest
      = runResolver ⟨toolsImports, allRequires, replaceDirectives⟩ :=
  resolver_deterministic theManifest
    ⟨toolsImports, allRequires, replaceDirectives⟩ rfl

/-- C8: Every import identifier blank-imported in src/tools.go also appears,
with an exact (nonempty) pinned version, in the direct require block of
go.mod: no manifest entry is left unpinned. -/
theorem manifest_imports_directly_pinned :
    ∀ p ∈ toolsImports, ∃ r ∈ directRequires,
      r.path = p ∧ r.version ≠ "" := by decide

theorem manifest_imports_directly_pinned_witness :
    ∃ r ∈ directRequires,
      r.path = "github.com/caddyserver/caddy/v2" ∧ r.version ≠ "" :=
  manifest_imports_directly_pinned "github.com/caddyserver/caddy/v2" (by decide)

lemma klzgrad_not_required :
    "github.com/klzgrad/forwardproxy" ∉ allRequires.map Require.path := by
  decide

lemma resolvedPaths_eq_subst :
    resolvedPins.map Require.path
      = (allRequires.map Require.path).map
          (fun p => if p = "github.com/caddyserver/forwardproxy"
                    then "github.com/klzgrad/forwardproxy" else p) := by
  decide

lemma nodup_map_subst (l : List String) (a b : String)
    (hb : b ∉ l) (hl : l.Nodup) :
    (l.map (fun p => if p = a then b else p)).Nodup := by
  refine List.Nodup.map_on ?_ hl
  intro x hx y hy hxy
  by_cases hxa : x = a <;> by_cases hya : y = a
  · rw [hxa, hya]
  · rw [if_pos hxa, if_neg hya] at hxy
    exact absurd (show b ∈ l from hxy ▸ hy) hb
  · rw [if_neg hxa, if_pos hya] at hxy
    exact absurd (show b ∈ l from hxy ▸ hx) hb
  · rwa [if_neg hxa, if_neg hya] at hxy

/-- C9: The redirect's replacement source identifier klzgrad/forwardproxy
does not occur as a dependency identifier in either require block of go.mod,
and consequently applying the redirect introduces no duplicate identifier
into the resolved set. -/
theorem replacement_source_fresh :
    "github.com/klzgrad/forwardproxy" ∉ allRequires.map Require.path
    ∧ (resolvedPins.map Require.path).Nodup := by
  refine ⟨klzgrad_not_required, ?_⟩
  rw [resolvedPaths_eq_subst]
  exact nodup_map_subst _ _ _ klzgrad_not_required allPaths_nodup

/-- C10: The Selection Manifest is gated behind the tools build constraint:
a build without that tag links none of the nine listed plugin packages, and
the imports contribute exactly when the tag is set. -/
theorem build_tag_gates_manifest (tags : List String) :
    (toolsBuildTag ∉ tags → linkedImports tags = [])
    ∧ (toolsBuildTag ∈ tags → linkedImports tags = toolsImports)
    ∧ toolsImports.length = 9 := by
  refine ⟨fun h => ?_, fun h => ?_, rfl⟩
  · simp [linkedImports, h]
  · simp [linkedImports, h]

theorem build_tag_gates_manifest_witness :
    linkedImports [] = [] ∧ linkedImports [toolsBuildTag] = toolsImports :=
  ⟨(build_tag_gates_manifest []).1 (by decide),
   (build_tag_gates_manifest [toolsBuildTag]).2.1 (by decide)⟩

end MyCustomCaddy
